import Mathlib

/-
Verification development for `wptrunner/environment.py`.

The Python module is a lifecycle layer that loads and merges JSON
configuration, builds routing tables, and starts/stops auxiliary test
servers.  Below, each relevant Python function or method is embedded as
an executable Lean definition over explicit inputs (filesystem, options
mapping, external collaborators), with Python exceptions represented by
an `Except PyError` result and observable side effects represented by
explicit effect traces.  External collaborators (the `serve` module, the
SSL environment, the network) are parameters; stdlib behaviours such as
`open`, `json.load` and `%`-interpolation are modelled faithfully as
small definitions.
-/

set_option maxHeartbeats 1000000

/-- Python exception classes that the embedded code can raise.
`configError` models the module's `TestEnvironmentError` class
(environment.py lines 80-81), which is declared but never raised;
the remaining constructors model Python builtins. -/
inductive PyError where
  | ioError
  | valueError
  | typeError
  | keyError (key : String)
  | nameError (name : String)
  | assertionError
  | environmentError (msg : String)
  | configError
deriving DecidableEq, Repr

/-- JSON values, as produced by Python `json.load` / `json.loads`.
Also used for the heterogeneous values held by the options mapping. -/
inductive JSON where
  | null
  | bool (b : Bool)
  | num (n : Int)
  | str (s : String)
  | arr (items : List JSON)
  | obj (fields : List (String × JSON))

/-- Python truthiness of a value (`if value:`). -/
def truthy : JSON → Bool
  | .null => false
  | .bool b => b
  | .num n => n != 0
  | .str s => s != ""
  | .arr items => !items.isEmpty
  | .obj fields => !fields.isEmpty

/-- Python `"%s" % value` rendering of a value.  Containers render to an
unspecified textual form; no claim depends on their rendering. -/
def pyToStr : JSON → String
  | .null => "None"
  | .bool true => "True"
  | .bool false => "False"
  | .num n => toString n
  | .str s => s
  | .arr _ => "list"
  | .obj _ => "dict"

/-- Heterogeneous Python dict with string keys (options / kwargs),
modelled as an association list with unique keys (a Python dict cannot
hold duplicate keys). -/
abbrev Options := List (String × JSON)

/-- Python dict item assignment `d[k] = v`: replaces the value in place
if the key exists (keeping its insertion position), otherwise appends
the new binding at the end, exactly as dict insertion order behaves. -/
def setAssoc {α : Type} : List (String × α) → String → α → List (String × α)
  | [], k, v => [(k, v)]
  | (k', v') :: rest, k, v =>
      if k' = k then (k, v) :: rest else (k', v') :: setAssoc rest k v

/-- Python `del d[k]` on a dict with unique keys: drop the first binding
of the key. -/
def delAssoc {α : Type} : List (String × α) → String → List (String × α)
  | [], _ => []
  | (k', v') :: rest, k =>
      if k' = k then rest else (k', v') :: delAssoc rest k

/-- Python dict subscript read `d[k]` on a JSON object: `KeyError` if
the key is absent, `TypeError` if the value is not a dict. -/
def objGet (j : JSON) (k : String) : Except PyError JSON :=
  match j with
  | .obj fields =>
      match List.lookup k fields with
      | some v => .ok v
      | none => .error (.keyError k)
  | _ => .error .typeError

/-- Python dict subscript write `d[k] = v` on a JSON object:
`TypeError` if the value is not a dict. -/
def objSet (j : JSON) (k : String) (v : JSON) : Except PyError JSON :=
  match j with
  | .obj fields => .ok (.obj (setAssoc fields k v))
  | _ => .error .typeError

/-- One piece of the text of a file: literal text, or a `%(name)s`
placeholder (the only formatting construct the local config template
uses). -/
inductive TItem where
  | lit (s : String)
  | placeholder (name : String)
deriving DecidableEq, Repr

/-- Text of a file. -/
abbrev Text := List TItem

/-- The filesystem: maps a path to the text of the file there, `none`
when the file is missing or unreadable (Python `open` raises
`IOError`). -/
abbrev FS := String → Option Text

/-- Python `data % options` on the local config template: each
`%(name)s` placeholder is replaced by the option value rendered with
`%s`; a placeholder whose name is absent from the mapping raises
`KeyError`. -/
def interpolate : Text → Options → Except PyError Text
  | [], _ => .ok []
  | .lit s :: rest, options => do
      let r ← interpolate rest options
      .ok (.lit s :: r)
  | .placeholder n :: rest, options =>
      match List.lookup n options with
      | some v => do
          let r ← interpolate rest options
          .ok (.lit (pyToStr v) :: r)
      | none => .error (.keyError n)

/-- `open(path)` followed by reading: `IOError` when the file is
missing or unreadable. -/
def readFile (fs : FS) (path : String) : Except PyError Text :=
  match fs path with
  | some t => .ok t
  | none => .error .ioError

/-- Descriptor attached to a URL base in the test-paths mapping
(`test_paths[url_base]["tests_path"]`). -/
structure TestPathEntry where
  tests_path : String
deriving DecidableEq, Repr

/-- The `test_paths` mapping from URL base to descriptor. -/
abbrev TestPaths := List (String × TestPathEntry)

/-- environment.py lines 59-60: `serve_path(test_paths)` returns
`test_paths["/"]["tests_path"]`; a missing `"/"` key raises
`KeyError`. -/
def serve_path (test_paths : TestPaths) : Except PyError String :=
  match List.lookup "/" test_paths with
  | some entry => .ok entry.tests_path
  | none => .error (.keyError "/")

/-- `os.path.join` for the joins performed here (base dir plus a
relative file name). -/
def pjoin (a b : String) : String := a ++ "/" ++ b

/-- `os.path.normpath`: the paths built here contain no `.` or `..`
components, so normalisation leaves them unchanged. -/
def normpath (p : String) : String := p

/-- environment.py line 17: `here = os.path.split(__file__)[0]`, the
directory of the module; its concrete value is irrelevant because the
filesystem is a parameter keyed on paths. -/
def here : String := "wptrunner"

/-- Python `value == "literal"` for a heterogeneous value: true exactly
when the value is that string (comparison with another type is simply
unequal, never an error). -/
def strEq : JSON → String → Bool
  | .str s, u => s == u
  | _, _ => false

/-- environment.py lines 63-72: `get_ssl_kwargs(**kwargs)` selects the
keyword arguments for the SSL backend from the `ssl_type` option.
Each `kwargs[...]` subscript can raise `KeyError`. -/
def get_ssl_kwargs (kwargs : Options) : Except PyError (List (String × JSON)) := do
  let t ←
    match List.lookup "ssl_type" kwargs with
    | some v => Except.ok v
    | none => Except.error (.keyError "ssl_type")
  if strEq t "openssl" then do
    let ob ←
      match List.lookup "openssl_binary" kwargs with
      | some v => Except.ok v
      | none => Except.error (.keyError "openssl_binary")
    Except.ok [("openssl_binary", ob)]
  else if strEq t "pregenerated" then do
    let hk ←
      match List.lookup "host_key_path" kwargs with
      | some v => Except.ok v
      | none => Except.error (.keyError "host_key_path")
    let hc ←
      match List.lookup "host_cert_path" kwargs with
      | some v => Except.ok v
      | none => Except.error (.keyError "host_cert_path")
    let ca ←
      match List.lookup "ca_cert_path" kwargs with
      | some v => Except.ok v
      | none => Except.error (.keyError "ca_cert_path")
    Except.ok [("host_key_path", hk), ("host_cert_path", hc), ("ca_cert_path", ca)]
  else
    Except.ok []

/-- A spawned server process handle: the only operation the embedded
code uses is `is_alive()` (plus `kill()`, modelled as an effect). -/
structure Server where
  is_alive : Bool
deriving DecidableEq, Repr

/-- `self.servers`: mapping scheme -> list of (port, process handle),
as returned by `serve.start`. -/
abbrev Servers := List (String × List (Nat × Server))

/-- A route registered with the serve module: a static file route
(filesystem path, template-expansion args, MIME type, URL) or a
mount-point route (URL base, filesystem directory; the synthesized root
mount carries no directory). -/
inductive Route where
  | static (path : String) (format_args : List (String × JSON))
      (content_type : String) (url : String)
  | mount (url_base : String) (fs_path : Option String)

/-- The external `serve` collaborator together with the stdlib JSON
parser.  `parse` models `json.load`/`json.loads` applied to file text
(`none` when the text is not valid JSON); `merge_json`,
`get_subdomains` and `start` model the collaborator functions of the
same names, with `get_subdomains` returning the first components
(`item[0]`) of the dictionary values. -/
structure Serve where
  parse : Text → Option JSON
  merge_json : JSON → JSON → JSON
  get_subdomains : String → List String
  start : JSON → List Route → JSON × Servers

/-- The external SSL environment collaborator: the `ssl_enabled` flag
and `host_cert_path(hosts) -> (key_file, certificate)`. -/
structure SslEnv where
  ssl_enabled : Bool
  host_cert_path : List String → JSON × JSON

/-- The `debug_info` argument: `interactive` is the only attribute the
embedded code reads; a `none` value models Python `None`. -/
structure DebugInfo where
  interactive : Bool
deriving DecidableEq, Repr

/-- `json.load(f)` / `json.loads(data)`: `ValueError` when the text is
not valid JSON. -/
def parseJson (sv : Serve) (t : Text) : Except PyError JSON :=
  match sv.parse t with
  | some j => .ok j
  | none => .error .valueError

/-- environment.py line 170: `config["ports"]["https"] = [None]` -
read the `ports` sub-dict and set its `https` entry to the single null
sentinel. -/
def disable_https_ports (config : JSON) : Except PyError JSON := do
  let ports ← objGet config "ports"
  let ports2 ← objSet ports "https" (.arr [.null])
  objSet config "ports" ports2

/-- environment.py lines 150-180: `LocalServerEnvironment.load_config`.
Reads and parses the default JSON config, reads the local config
template, interpolates it against the options mapping and parses it,
injects `external_host` and `ssl.encrypt_after_connect`, merges via
`serve.merge_json`, recomputes `doc_root`, forces the HTTPS port list
to `[None]` when SSL is disabled, resolves the certificate domain
(note: `config["host"]` is evaluated eagerly as the `.get` default),
expands subdomains and stores the key/certificate paths returned by the
SSL environment. -/
def load_config (fs : FS) (sv : Serve) (test_paths : TestPaths)
    (options : Options) (ssl_env : SslEnv) : Except PyError JSON := do
  let root ← serve_path test_paths
  let dtext ← readFile fs (pjoin root "config.default.json")
  let default_config ← parseJson sv dtext
  let ltext ← readFile fs (pjoin here "config.json")
  let data ← interpolate ltext options
  let local_config ← parseJson sv data
  let local_config2 ← objSet local_config "external_host"
      ((List.lookup "external_host" options).getD .null)
  let sslSec ← objGet local_config2 "ssl"
  let sslSec2 ← objSet sslSec "encrypt_after_connect"
      ((List.lookup "encrypt_after_connect" options).getD (.bool false))
  let local_config3 ← objSet local_config2 "ssl" sslSec2
  let merged := sv.merge_json default_config local_config3
  let config ← objSet merged "doc_root" (.str root)
  let config2 ←
    if ssl_env.ssl_enabled then Except.ok config
    else disable_https_ports config
  let hostJ ← objGet config2 "host"
  let host := pyToStr ((List.lookup "certificate_domain" options).getD hostJ)
  let hosts := host :: (sv.get_subdomains host).map (fun item => item ++ "." ++ host)
  let kc := ssl_env.host_cert_path hosts
  let config3 ← objSet config2 "key_file" kc.1
  objSet config3 "certificate" kc.2

/-- The option value used as the report-script file name
(`self.options.get("testharnessreport", "testharnessreport.js")`); a
non-string value would make `os.path.join` raise `TypeError`. -/
def getStrOpt (options : Options) (key dflt : String) : Except PyError String :=
  match List.lookup key options with
  | none => .ok dflt
  | some (.str s) => .ok s
  | some _ => .error .typeError

/-- Modelled from the spec: `serve.RoutesBuilder` (external
collaborator, not part of this source slice) - holds the static routes
added so far and the mount-point routes keyed by URL base; per the
spec's route invariant a root mount point is synthesized up front (the
code's `del route_builder.mountpoint_routes["/"]` relies on it). -/
structure RoutesBuilder where
  static_routes : List Route
  mountpoint_routes : List (String × Option String)

/-- Modelled from the spec: a fresh builder with the synthesized root
mount point and no static routes. -/
def RoutesBuilder.init : RoutesBuilder := ⟨[], [("/", none)]⟩

/-- Modelled from the spec: `add_static(path, format_args,
content_type, route)` appends one static route. -/
def RoutesBuilder.add_static (b : RoutesBuilder) (path : String)
    (format_args : List (String × JSON)) (content_type url : String) :
    RoutesBuilder :=
  { b with static_routes :=
      b.static_routes ++ [.static path format_args content_type url] }

/-- Modelled from the spec: `add_mount_point(url_base, fs_path)`
registers a mount-point route under its URL base. -/
def RoutesBuilder.add_mount_point (b : RoutesBuilder)
    (url_base fs_path : String) : RoutesBuilder :=
  { b with mountpoint_routes :=
      setAssoc b.mountpoint_routes url_base (some fs_path) }

/-- `del route_builder.mountpoint_routes["/"]` - dict deletion raises
`KeyError` when the key is absent. -/
def RoutesBuilder.delMount (b : RoutesBuilder) (k : String) :
    Except PyError RoutesBuilder :=
  if (List.lookup k b.mountpoint_routes).isSome then
    .ok { b with mountpoint_routes := delAssoc b.mountpoint_routes k }
  else .error (.keyError k)

/-- Modelled from the spec: `get_routes()` on the builder - static
routes first, then the mount-point routes. -/
def RoutesBuilder.get_routes (b : RoutesBuilder) : List Route :=
  b.static_routes ++ b.mountpoint_routes.map (fun p => .mount p.1 p.2)

/-- environment.py lines 209-212: the loop adding one mount point per
test-path entry whose URL base is not the root. -/
def add_mount_points (b : RoutesBuilder) (test_paths : TestPaths) :
    RoutesBuilder :=
  test_paths.foldl
    (fun b p => if p.1 = "/" then b else b.add_mount_point p.1 p.2.tests_path) b

/-- environment.py lines 198-217: `LocalServerEnvironment.get_routes`.
Two static routes (the fixed runner page and the report script named by
the `testharnessreport` option, with `output` set to
`pause_after_test`), then a mount point for every non-root test path;
the synthesized root mount point is deleted when `"/"` is not among the
test paths. -/
def get_routes (test_paths : TestPaths) (options : Options)
    (pause_after_test : Bool) : Except PyError (List Route) := do
  let rpt ← getStrOpt options "testharnessreport" "testharnessreport.js"
  let b := RoutesBuilder.init
  let b := b.add_static (normpath (pjoin here "testharness_runner.html"))
      [] "text/html" "/testharness_runner.html"
  let b := b.add_static (normpath (pjoin here rpt))
      [("output", .bool pause_after_test)] "text/javascript"
      "/resources/testharnessreport.js"
  let b := add_mount_points b test_paths
  let b ←
    if (List.lookup "/" test_paths).isSome then Except.ok b
    else b.delMount "/"
  Except.ok b.get_routes

/-- The message of the `EnvironmentError` raised by `ensure_started`:
`"%s server on port %d failed to start" % (scheme, port)`. -/
def server_fail_msg (scheme : String) (port : Nat) : String :=
  scheme ++ " server on port " ++ toString port ++ " failed to start"

/-- environment.py lines 223-235, inner loop of `ensure_started` for
one scheme: for each (port, server), when `self.test_server_port` is
truthy attempt the TCP connect to `(self.config["host"], port)`
(`EnvironmentError` on failure; a missing `host` key propagates as
`KeyError`), then check `server.is_alive()` (`EnvironmentError` when
not alive), with no retry. -/
def check_pairs (net : JSON → Nat → Bool) (config : JSON) (tsp : JSON)
    (scheme : String) : List (Nat × Server) → Except PyError Unit
  | [] => .ok ()
  | (port, server) :: rest =>
      match (if truthy tsp then
               match objGet config "host" with
               | .ok h =>
                   if net h port then Except.ok ()
                   else Except.error (.environmentError (server_fail_msg scheme port))
               | .error e => Except.error e
             else Except.ok ()) with
      | .error e => .error e
      | .ok _ =>
          if server.is_alive then check_pairs net config tsp scheme rest
          else .error (.environmentError (server_fail_msg scheme port))

/-- environment.py lines 222-235, outer loop of `ensure_started` over
`self.servers.iteritems()`. -/
def check_servers (net : JSON → Nat → Bool) (config : JSON) (tsp : JSON) :
    Servers → Except PyError Unit
  | [] => .ok ()
  | (scheme, pairs) :: rest =>
      match check_pairs net config tsp scheme pairs with
      | .error e => .error e
      | .ok _ => check_servers net config tsp rest

/-- environment.py lines 219-235:
`LocalServerEnvironment.ensure_started`.  The first component is the
number of seconds slept before any check (`time.sleep(2)`); the second
is the outcome of the single pass over all (scheme, port) pairs.  `net`
models raw TCP connectability of (host value, port). -/
def ensure_started (net : JSON → Nat → Bool) (config : JSON) (tsp : JSON)
    (servers : Servers) : Nat × Except PyError Unit :=
  (2, check_servers net config tsp servers)

/-- SIGINT dispositions used by the module: `signal.SIG_DFL` and
`signal.SIG_IGN`. -/
inductive SigDisposition where
  | sigDfl
  | sigIgn
deriving DecidableEq, Repr

/-- Observable side effects of the environment lifecycle, in the order
they are performed. -/
inductive Effect where
  | createCacheManager
  | createStash
  | enterCacheManager
  | enterStash
  | exitCacheManager
  | exitStash
  | enterSslEnv
  | exitSslEnv
  | setupLogging
  | setComputedDefaults
  | startServers
  | sigSet (d : SigDisposition)
  | killServer (scheme : String) (port : Nat)
deriving DecidableEq, Repr

/-- Fields of a `BaseEnvironment` instance after `__init__`
(environment.py lines 85-98). -/
structure BaseEnv where
  test_paths : TestPaths
  ssl_env : SslEnv
  config : Option JSON
  external_config : Option JSON
  pause_after_test : Bool
  test_server_port : JSON
  debug_info : Option DebugInfo
  options : Options

/-- environment.py lines 85-98: `BaseEnvironment.__init__` - stores the
arguments, pops `test_server_port` (default `True`) out of the options
mapping, and constructs the cache manager and the stash server. -/
def baseEnvironment_init (test_paths : TestPaths) (ssl_env : SslEnv)
    (pause_after_test : Bool) (debug_info : Option DebugInfo)
    (options : Options) : BaseEnv × List Effect :=
  ({ test_paths := test_paths
     ssl_env := ssl_env
     config := none
     external_config := none
     pause_after_test := pause_after_test
     test_server_port := (List.lookup "test_server_port" options).getD (.bool true)
     debug_info := debug_info
     options := delAssoc options "test_server_port" },
   [.createCacheManager, .createStash])

/-- environment.py lines 100-103: `BaseEnvironment.__enter__` enters
the cache manager, then the stash. -/
def baseEnvironment_enter : List Effect := [.enterCacheManager, .enterStash]

/-- environment.py lines 105-107: the body of
`BaseEnvironment.__exit__` exits the cache manager, then the stash -
the same order in which they were acquired. -/
def baseEnvironment_exit : List Effect := [.exitCacheManager, .exitStash]

/-- Number of parameters of `BaseEnvironment.__exit__` (environment.py
line 105): `self`, `exc_type`, `exc_val`, `exc_tb` - all required. -/
def baseExitParamCount : Nat := 4

/-- Number of arguments that `LocalServerEnvironment.__exit__` passes
to `BaseEnvironment.__exit__` (environment.py line 136:
`BaseEnvironment.__exit__(self)`). -/
def localExitArgCount : Nat := 1

/-- environment.py lines 135-142: `LocalServerEnvironment.__exit__`.
The first statement calls `BaseEnvironment.__exit__(self)`; if that
call bound (first branch) the method would then restore SIGINT, kill
every spawned server and exit the SSL environment - but the base
method requires the three exception arguments as well, so the call
raises `TypeError` with nothing performed.  Returns the effects
performed before the method finished or raised, paired with the raised
exception if any. -/
def localServerEnvironment_exit (servers : Servers) :
    List Effect × Option PyError :=
  if localExitArgCount = baseExitParamCount then
    (baseEnvironment_exit
       ++ [.sigSet .sigDfl]
       ++ servers.flatMap (fun sp => sp.2.map (fun pq => Effect.killServer sp.1 pq.1))
       ++ [.exitSslEnv],
     none)
  else ([], some .typeError)

/-- Truthiness of `self.options.get(key)` (absent keys give `None`,
which is falsy). -/
def truthyOpt (options : Options) (key : String) : Bool :=
  match List.lookup key options with
  | some v => truthy v
  | none => false

/-- Truthiness of `self.debug_info and self.debug_info.interactive`. -/
def debugInteractive : Option DebugInfo → Bool
  | some di => di.interactive
  | none => false

/-- environment.py lines 123-133: `LocalServerEnvironment.__enter__`.
Enters the base resources, the SSL environment, sets up server
logging, loads the configuration (aborting with the raised exception
on failure), applies computed defaults, starts the servers with the
routes (a `get_routes` failure aborts likewise), and ignores SIGINT
exactly when `supports_debugger` is truthy and interactive debug info
is present.  Returns the effects performed plus the outcome. -/
def localServerEnvironment_enter (fs : FS) (sv : Serve)
    (test_paths : TestPaths) (options : Options) (ssl_env : SslEnv)
    (debug_info : Option DebugInfo) (pause_after_test : Bool) :
    List Effect × Except PyError (JSON × Servers) :=
  let eff1 := baseEnvironment_enter ++ [Effect.enterSslEnv, Effect.setupLogging]
  match load_config fs sv test_paths options ssl_env with
  | .error e => (eff1, .error e)
  | .ok config =>
      let eff2 := eff1 ++ [Effect.setComputedDefaults]
      match get_routes test_paths options pause_after_test with
      | .error e => (eff2, .error e)
      | .ok routes =>
          let started := sv.start config routes
          let eff3 := eff2 ++ [Effect.startServers]
          if truthyOpt options "supports_debugger" && debugInteractive debug_info then
            (eff3 ++ [.sigSet .sigIgn], .ok started)
          else (eff3, .ok started)

/-- Names visible in the body of `LocalServerEnvironment.__init__`
(environment.py lines 119-121): the parameters and the enclosing
module-level bindings it uses. -/
def localInitScope : List String := ["self", "args", "kwargs", "BaseEnvironment"]

/-- environment.py lines 119-121: `LocalServerEnvironment.__init__`
forwards `*args, **kwawrgs` to the base constructor; `kwawrgs` is not
among the names in scope, so evaluating it raises `NameError` before
the base constructor is called.  Were the name bound (first branch),
the method would run the base constructor and compute `self.routes =
self.get_routes()`. -/
def localServerEnvironment_init (test_paths : TestPaths) (ssl_env : SslEnv)
    (pause_after_test : Bool) (debug_info : Option DebugInfo)
    (options : Options) : Except PyError (BaseEnv × List Route) :=
  if "kwawrgs" ∈ localInitScope then
    let base := baseEnvironment_init test_paths ssl_env pause_after_test debug_info options
    match get_routes base.1.test_paths base.1.options base.1.pause_after_test with
    | .ok routes => .ok (base.1, routes)
    | .error e => .error e
  else .error (.nameError "kwawrgs")

/-- environment.py lines 112-116: `RemoteServerEnvironment.__init__` -
base constructor, then `assert not self.pause_after_test`
(`AssertionError` when violated), then `self.external_config =
options["external_config"]` (a `KeyError` when absent; the base
constructor popped `test_server_port` from the same mapping first). -/
def remoteServerEnvironment_init (test_paths : TestPaths) (ssl_env : SslEnv)
    (pause_after_test : Bool) (debug_info : Option DebugInfo)
    (options : Options) : List Effect × Except PyError BaseEnv :=
  let base := baseEnvironment_init test_paths ssl_env pause_after_test debug_info options
  if base.1.pause_after_test then (base.2, .error .assertionError)
  else
    match List.lookup "external_config" base.1.options with
    | some ec => (base.2, .ok { base.1 with external_config := some ec })
    | none => (base.2, .error (.keyError "external_config"))

theorem lookup_cons {α : Type} (k k' : String) (v : α) (t : List (String × α)) :
    List.lookup k ((k', v) :: t) = if k = k' then some v else List.lookup k t := by
  by_cases h : k = k'
  · subst h
    simp [List.lookup]
  · simp [List.lookup, beq_eq_false_iff_ne.mpr h, h]

theorem lookup_setAssoc_self {α : Type} (l : List (String × α)) (k : String) (v : α) :
    List.lookup k (setAssoc l k v) = some v := by
  induction l with
  | nil => simp [setAssoc, lookup_cons]
  | cons p t ih =>
      obtain ⟨k', v'⟩ := p
      by_cases hk : k' = k
      · subst hk
        simp [setAssoc, lookup_cons]
      · simp [setAssoc, hk, lookup_cons, Ne.symm hk, ih]

theorem lookup_nil {α : Type} (k : String) :
    List.lookup k ([] : List (String × α)) = none := rfl

theorem lookup_setAssoc_ne {α : Type} (l : List (String × α)) (k k2 : String) (v : α)
    (h : k ≠ k2) : List.lookup k (setAssoc l k2 v) = List.lookup k l := by
  induction l with
  | nil => simp [setAssoc, lookup_cons, lookup_nil, h]
  | cons p t ih =>
      obtain ⟨k', v'⟩ := p
      by_cases hk : k' = k2
      · subst hk
        simp [setAssoc, lookup_cons, h]
      · simp [setAssoc, hk, lookup_cons, ih]

theorem setAssoc_of_lookup_none {α : Type} (l : List (String × α)) (k : String) (v : α)
    (h : List.lookup k l = none) : setAssoc l k v = l ++ [(k, v)] := by
  induction l with
  | nil => simp [setAssoc]
  | cons p t ih =>
      obtain ⟨k', v'⟩ := p
      rw [lookup_cons] at h
      by_cases hk : k = k'
      · rw [if_pos hk] at h
        exact Option.noConfusion h
      · rw [if_neg hk] at h
        simp [setAssoc, Ne.symm hk, ih h]

theorem lookup_concat_none {α : Type} (l : List (String × α)) (x k : String) (v : α)
    (h : List.lookup x l = none) (hne : x ≠ k) :
    List.lookup x (l ++ [(k, v)]) = none := by
  induction l with
  | nil => simp [lookup_cons, hne, lookup_nil]
  | cons p t ih =>
      obtain ⟨k', v'⟩ := p
      rw [lookup_cons] at h
      by_cases hk : x = k'
      · rw [if_pos hk] at h
        exact Option.noConfusion h
      · rw [if_neg hk] at h
        rw [List.cons_append, lookup_cons, if_neg hk]
        exact ih h

/-- C9: For every argument tuple, constructing a LocalServerEnvironment
raises a NameError, because the constructor forwards the undefined name
`kwawrgs` to the base constructor; no LocalServerEnvironment instance
can ever be created successfully. -/
theorem c9_local_init_name_error :
    ∀ (tp : TestPaths) (ssl : SslEnv) (pat : Bool) (di : Option DebugInfo)
      (opts : Options),
      localServerEnvironment_init tp ssl pat di opts
        = Except.error (PyError.nameError "kwawrgs")
      ∧ ¬ ∃ env, localServerEnvironment_init tp ssl pat di opts = Except.ok env := by
  intro tp ssl pat di opts
  refine ⟨?_, ?_⟩ <;> simp [localServerEnvironment_init, localInitScope]

/-- C10: Whenever LocalServerEnvironment's exit is invoked, the call to
the base exit lacks the three required exception arguments, so it
raises TypeError with no effect performed: the interrupt handler is not
restored, no spawned server process is killed, and the SSL environment
is not exited. -/
theorem c10_local_exit_typeerror :
    ∀ servers : Servers,
      localServerEnvironment_exit servers = ([], some PyError.typeError) := by
  intro servers
  simp [localServerEnvironment_exit, localExitArgCount, baseExitParamCount]

/-- C1 counterexample: at a concrete environment owning one https
server on port 443, exiting performs no release at all - the trace is
empty and a TypeError is raised: the SSL environment is not exited, the
server is not killed, the interrupt handler is not restored, and the
stash and cache manager are not released - refuting the claim that the
full teardown always happens. -/
theorem c1_exit_counterexample :
    (localServerEnvironment_exit [("https", [(443, ⟨true⟩)])]).2 = some PyError.typeError
    ∧ Effect.exitSslEnv ∉ (localServerEnvironment_exit [("https", [(443, ⟨true⟩)])]).1
    ∧ Effect.killServer "https" 443 ∉ (localServerEnvironment_exit [("https", [(443, ⟨true⟩)])]).1
    ∧ Effect.sigSet .sigDfl ∉ (localServerEnvironment_exit [("https", [(443, ⟨true⟩)])]).1
    ∧ Effect.exitStash ∉ (localServerEnvironment_exit [("https", [(443, ⟨true⟩)])]).1
    ∧ Effect.exitCacheManager ∉ (localServerEnvironment_exit [("https", [(443, ⟨true⟩)])]).1 := by
  decide

/-- C1 (amended): On exit of a LocalEnvironment, the call to the base
exit omits its three required exception arguments, so every exit raises
TypeError immediately and releases nothing - no stash or cache-manager
release, no server kill, no SSL exit, no signal-handler restoration -
whether or not an exception propagated; moreover the base teardown
itself, when invoked correctly, releases the cache manager before the
stash, i.e. in the same order as acquisition, not the reverse. -/
theorem c1_exit_releases_nothing :
    ∀ servers : Servers,
      (localServerEnvironment_exit servers).1 = []
      ∧ (localServerEnvironment_exit servers).2 = some PyError.typeError
      ∧ baseEnvironment_enter = [Effect.enterCacheManager, Effect.enterStash]
      ∧ baseEnvironment_exit = [Effect.exitCacheManager, Effect.exitStash] := by
  intro servers
  refine ⟨?_, ?_, rfl, rfl⟩ <;>
    simp [localServerEnvironment_exit, localExitArgCount, baseExitParamCount]

/-- C7: The keyword arguments passed to the SSL backend constructor are
determined solely by the ssl_type option and follow a disjoint mapping:
`openssl` yields exactly the openssl_binary argument, `pregenerated`
yields exactly the host_key_path, host_cert_path and ca_cert_path
arguments, and every other ssl_type value yields the empty argument
set. -/
theorem c7_get_ssl_kwargs_mapping :
    ∀ kwargs : Options,
      (∀ v, List.lookup "ssl_type" kwargs = some (JSON.str "openssl") →
        List.lookup "openssl_binary" kwargs = some v →
        get_ssl_kwargs kwargs = Except.ok [("openssl_binary", v)])
      ∧ (∀ hk hc ca, List.lookup "ssl_type" kwargs = some (JSON.str "pregenerated") →
        List.lookup "host_key_path" kwargs = some hk →
        List.lookup "host_cert_path" kwargs = some hc →
        List.lookup "ca_cert_path" kwargs = some ca →
        get_ssl_kwargs kwargs
          = Except.ok [("host_key_path", hk), ("host_cert_path", hc), ("ca_cert_path", ca)])
      ∧ (∀ t, List.lookup "ssl_type" kwargs = some t →
        strEq t "openssl" = false → strEq t "pregenerated" = false →
        get_ssl_kwargs kwargs = Except.ok []) := by
  intro kwargs
  refine ⟨?_, ?_, ?_⟩
  · intro v h1 h2
    simp [get_ssl_kwargs, h1, h2, strEq, Bind.bind, Except.bind]
  · intro hk hc ca h1 h2 h3 h4
    simp [get_ssl_kwargs, h1, h2, h3, h4, strEq, Bind.bind, Except.bind]
  · intro t h1 h2 h3
    simp [get_ssl_kwargs, h1, h2, h3, Bind.bind, Except.bind]

/-- Witness for C7: the three branches of the mapping evaluated at
concrete kwargs. -/
theorem c7_get_ssl_kwargs_mapping_witness :
    get_ssl_kwargs [("ssl_type", .str "openssl"), ("openssl_binary", .str "/bin/openssl")]
      = Except.ok [("openssl_binary", JSON.str "/bin/openssl")]
    ∧ get_ssl_kwargs [("ssl_type", .str "pregenerated"), ("host_key_path", .str "k"),
        ("host_cert_path", .str "c"), ("ca_cert_path", .str "a")]
      = Except.ok [("host_key_path", JSON.str "k"), ("host_cert_path", JSON.str "c"),
          ("ca_cert_path", JSON.str "a")]
    ∧ get_ssl_kwargs [("ssl_type", .str "none")] = Except.ok [] :=
  ⟨(c7_get_ssl_kwargs_mapping _).1 _ rfl rfl,
   (c7_get_ssl_kwargs_mapping _).2.1 _ _ _ rfl rfl rfl rfl,
   (c7_get_ssl_kwargs_mapping _).2.2 _ rfl rfl rfl⟩

/-- C8: Constructing a RemoteEnvironment with pause_after_test true
fails via the assertion; with pause_after_test false and an
external_config entry present construction succeeds, the external
configuration is taken from that entry, and no server startup is
performed. -/
theorem c8_remote_init :
    ∀ (tp : TestPaths) (ssl : SslEnv) (pat : Bool) (di : Option DebugInfo)
      (opts : Options),
      (pat = true →
        (remoteServerEnvironment_init tp ssl pat di opts).2
          = Except.error PyError.assertionError)
      ∧ (∀ ec, pat = false →
        List.lookup "external_config" (delAssoc opts "test_server_port") = some ec →
        ((remoteServerEnvironment_init tp ssl pat di opts).2).map BaseEnv.external_config
          = Except.ok (some ec))
      ∧ Effect.startServers ∉ (remoteServerEnvironment_init tp ssl pat di opts).1 := by
  intro tp ssl pat di opts
  refine ⟨?_, ?_, ?_⟩
  · intro hpat
    simp [remoteServerEnvironment_init, baseEnvironment_init, hpat]
  · intro ec hpat hlook
    simp [remoteServerEnvironment_init, baseEnvironment_init, hpat, hlook, Except.map]
  · by_cases hp : pat
    · simp [remoteServerEnvironment_init, baseEnvironment_init, hp]
    · cases hlook : List.lookup "external_config" (delAssoc opts "test_server_port") <;>
        simp [remoteServerEnvironment_init, baseEnvironment_init, hp, hlook]

/-- Witness for C8: the assertion branch and the successful branch at
concrete inputs. -/
theorem c8_remote_init_witness :
    (remoteServerEnvironment_init [] ⟨false, fun _ => (.null, .null)⟩ true none []).2
      = Except.error PyError.assertionError
    ∧ ((remoteServerEnvironment_init [] ⟨false, fun _ => (.null, .null)⟩ false none
        [("external_config", .obj [])]).2).map BaseEnv.external_config
      = Except.ok (some (JSON.obj []))
    ∧ Effect.startServers ∉ (remoteServerEnvironment_init [] ⟨false, fun _ => (.null, .null)⟩
        false none [("external_config", .obj [])]).1 :=
  ⟨(c8_remote_init _ _ _ _ _).1 rfl,
   (c8_remote_init _ _ _ _ _).2.1 _ rfl rfl,
   (c8_remote_init _ _ _ _ _).2.2⟩

theorem check_pairs_ok_iff (net : JSON → Nat → Bool) (config : JSON) (tsp : JSON)
    (scheme : String) (h : JSON) (hh : objGet config "host" = Except.ok h) :
    ∀ pairs : List (Nat × Server),
      (check_pairs net config tsp scheme pairs = Except.ok () ↔
        ∀ pq ∈ pairs, (truthy tsp = true → net h pq.1 = true) ∧ pq.2.is_alive = true) := by
  intro pairs
  induction pairs with
  | nil => simp [check_pairs]
  | cons pq rest ih =>
      obtain ⟨port, server⟩ := pq
      by_cases ht : truthy tsp = true <;>
        by_cases hnet : net h port = true <;>
          by_cases ha : server.is_alive = true <;>
            simp [check_pairs, hh, ht, hnet, ha, ih]

theorem check_pairs_error_char (net : JSON → Nat → Bool) (config : JSON) (tsp : JSON)
    (scheme : String) (h : JSON) (hh : objGet config "host" = Except.ok h) :
    ∀ (pairs : List (Nat × Server)) (e : PyError),
      check_pairs net config tsp scheme pairs = Except.error e →
      ∃ pq, pq ∈ pairs ∧ e = PyError.environmentError (server_fail_msg scheme pq.1)
        ∧ ((truthy tsp = true ∧ net h pq.1 = false) ∨ pq.2.is_alive = false) := by
  intro pairs
  induction pairs with
  | nil =>
      intro e he
      simp [check_pairs] at he
  | cons pq rest ih =>
      obtain ⟨port, server⟩ := pq
      intro e he
      by_cases ht : truthy tsp = true
      · by_cases hnet : net h port = true
        · by_cases ha : server.is_alive = true
          · simp [check_pairs, hh, ht, hnet, ha] at he
            obtain ⟨pq2, hmem, hrest⟩ := ih e he
            exact ⟨pq2, List.mem_cons_of_mem _ hmem, hrest⟩
          · simp [check_pairs, hh, ht, hnet, ha] at he
            refine ⟨(port, server), List.mem_cons_self _ _, ?_, ?_⟩
            · simp [he]
            · right
              simpa using ha
        · simp [check_pairs, hh, ht, hnet] at he
          refine ⟨(port, server), List.mem_cons_self _ _, ?_, ?_⟩
          · simp [he]
          · left
            exact ⟨ht, by simpa using hnet⟩
      · by_cases ha : server.is_alive = true
        · simp [check_pairs, ht, ha] at he
          obtain ⟨pq2, hmem, hrest⟩ := ih e he
          exact ⟨pq2, List.mem_cons_of_mem _ hmem, hrest⟩
        · simp [check_pairs, ht, ha] at he
          refine ⟨(port, server), List.mem_cons_self _ _, ?_, ?_⟩
          · simp [he]
          · right
            simpa using ha

theorem check_servers_ok_iff (net : JSON → Nat → Bool) (config : JSON) (tsp : JSON)
    (h : JSON) (hh : objGet config "host" = Except.ok h) :
    ∀ servers : Servers,
      (check_servers net config tsp servers = Except.ok () ↔
        ∀ sp ∈ servers, ∀ pq ∈ sp.2,
          (truthy tsp = true → net h pq.1 = true) ∧ pq.2.is_alive = true) := by
  intro servers
  induction servers with
  | nil => simp [check_servers]
  | cons sp rest ih =>
      obtain ⟨scheme, pairs⟩ := sp
      cases hcp : check_pairs net config tsp scheme pairs with
      | ok u =>
          cases u
          have hall := (check_pairs_ok_iff net config tsp scheme h hh pairs).mp hcp
          simp only [check_servers, hcp]
          constructor
          · intro hrest sp hmem
            rcases List.mem_cons.mp hmem with heq | hmem2
            · subst heq
              exact fun pq hpq => hall pq hpq
            · exact (ih.mp hrest) sp hmem2
          · intro hall2
            exact ih.mpr (fun sp hmem => hall2 sp (List.mem_cons_of_mem _ hmem))
      | error e =>
          obtain ⟨pq, hmem, _, hbad⟩ :=
            check_pairs_error_char net config tsp scheme h hh pairs e hcp
          simp only [check_servers, hcp]
          constructor
          · intro hcontra
            exact Except.noConfusion hcontra
          · intro hall
            rcases hbad with ⟨htr, hnet⟩ | halive
            · have := ((hall (scheme, pairs) (List.mem_cons_self _ _)) pq hmem).1 htr
              simp [this] at hnet
            · have := ((hall (scheme, pairs) (List.mem_cons_self _ _)) pq hmem).2
              simp [this] at halive

theorem check_servers_error_char (net : JSON → Nat → Bool) (config : JSON) (tsp : JSON)
    (h : JSON) (hh : objGet config "host" = Except.ok h) :
    ∀ (servers : Servers) (e : PyError),
      check_servers net config tsp servers = Except.error e →
      ∃ sp, sp ∈ servers ∧ ∃ pq, pq ∈ sp.2
        ∧ e = PyError.environmentError (server_fail_msg sp.1 pq.1)
        ∧ ((truthy tsp = true ∧ net h pq.1 = false) ∨ pq.2.is_alive = false) := by
  intro servers
  induction servers with
  | nil =>
      intro e he
      simp [check_servers] at he
  | cons sp rest ih =>
      obtain ⟨scheme, pairs⟩ := sp
      intro e he
      cases hcp : check_pairs net config tsp scheme pairs with
      | ok u =>
          cases u
          rw [check_servers, hcp] at he
          obtain ⟨sp2, hmem, hrest⟩ := ih e he
          exact ⟨sp2, List.mem_cons_of_mem _ hmem, hrest⟩
      | error e2 =>
          rw [check_servers, hcp] at he
          have he2 : e2 = e := Except.error.inj he
          subst he2
          obtain ⟨pq, hmem, hmsg, hbad⟩ :=
            check_pairs_error_char net config tsp scheme h hh pairs e2 hcp
          exact ⟨(scheme, pairs), List.mem_cons_self _ _, pq, hmem, hmsg, hbad⟩

/-- C2: ensure_started on a LocalEnvironment first sleeps a fixed 2
seconds; then, in a single pass, for every (scheme, port) pair of
started servers it raises EnvironmentError whose message carries the
scheme and the port when either check fails - the raw TCP connect
(skipped when the test_server_port option is falsy) or the process
aliveness check, which runs and can raise even when the TCP probe is
skipped or succeeds; success means every pair passed both applicable
checks. -/
theorem c2_ensure_started_checks (net : JSON → Nat → Bool) (config : JSON)
    (tsp : JSON) (servers : Servers) (h : JSON)
    (hh : objGet config "host" = Except.ok h) :
    (ensure_started net config tsp servers).1 = 2
    ∧ ((ensure_started net config tsp servers).2 = Except.ok () ↔
        ∀ sp ∈ servers, ∀ pq ∈ sp.2,
          (truthy tsp = true → net h pq.1 = true) ∧ pq.2.is_alive = true)
    ∧ (∀ e, (ensure_started net config tsp servers).2 = Except.error e →
        ∃ sp, sp ∈ servers ∧ ∃ pq, pq ∈ sp.2
          ∧ e = PyError.environmentError (server_fail_msg sp.1 pq.1)
          ∧ ((truthy tsp = true ∧ net h pq.1 = false) ∨ pq.2.is_alive = false)) := by
  refine ⟨rfl, ?_, ?_⟩
  · exact check_servers_ok_iff net config tsp h hh servers
  · exact check_servers_error_char net config tsp h hh servers

/-- Witness for C2, at a concrete configuration with a healthy http
server on port 80 and a healthy https server on port 443, everything
reachable: the sleep is 2 seconds and the single pass succeeds. -/
theorem c2_ensure_started_checks_witness :
    (ensure_started (fun _ _ => true) (.obj [("host", .str "h")]) (.bool true)
        [("http", [(80, ⟨true⟩)]), ("https", [(443, ⟨true⟩)])]).1 = 2
    ∧ (ensure_started (fun _ _ => true) (.obj [("host", .str "h")]) (.bool true)
        [("http", [(80, ⟨true⟩)]), ("https", [(443, ⟨true⟩)])]).2 = Except.ok () :=
  ⟨(c2_ensure_started_checks (fun _ _ => true) (.obj [("host", .str "h")]) (.bool true)
      [("http", [(80, ⟨true⟩)]), ("https", [(443, ⟨true⟩)])] (.str "h") rfl).1,
   ((c2_ensure_started_checks (fun _ _ => true) (.obj [("host", .str "h")]) (.bool true)
      [("http", [(80, ⟨true⟩)]), ("https", [(443, ⟨true⟩)])] (.str "h") rfl).2.1).mpr
     (by decide)⟩

theorem add_mount_points_cons (b : RoutesBuilder) (p : String × TestPathEntry)
    (rest : TestPaths) :
    add_mount_points b (p :: rest)
      = add_mount_points
          (if p.1 = "/" then b else b.add_mount_point p.1 p.2.tests_path) rest := rfl

theorem add_mount_points_static (tp : TestPaths) : ∀ b : RoutesBuilder,
    (add_mount_points b tp).static_routes = b.static_routes := by
  induction tp with
  | nil => intro b; rfl
  | cons p rest ih =>
      intro b
      rw [add_mount_points_cons]
      by_cases hp : p.1 = "/"
      · rw [if_pos hp]
        exact ih b
      · rw [if_neg hp, ih]
        rfl

theorem add_mount_points_mounts (tp : TestPaths) : ∀ b : RoutesBuilder,
    (tp.map Prod.fst).Nodup →
    (∀ p ∈ tp, p.1 ≠ "/" → List.lookup p.1 b.mountpoint_routes = none) →
    (add_mount_points b tp).mountpoint_routes
      = b.mountpoint_routes
        ++ (tp.filter (fun p => p.1 != "/")).map (fun p => (p.1, some p.2.tests_path)) := by
  induction tp with
  | nil =>
      intro b _ _
      simp [add_mount_points]
  | cons p rest ih =>
      intro b hnodup hnone
      have hnodup2 : (rest.map Prod.fst).Nodup := by
        simpa using (List.nodup_cons.mp (by simpa using hnodup)).2
      rw [add_mount_points_cons]
      by_cases hp : p.1 = "/"
      · rw [if_pos hp]
        rw [ih b hnodup2 (fun q hq hq2 => hnone q (List.mem_cons_of_mem _ hq) hq2)]
        simp [List.filter_cons, hp]
      · rw [if_neg hp]
        have hlook : List.lookup p.1 b.mountpoint_routes = none :=
          hnone p (List.mem_cons_self _ _) hp
        have hmp : (b.add_mount_point p.1 p.2.tests_path).mountpoint_routes
            = b.mountpoint_routes ++ [(p.1, some p.2.tests_path)] := by
          simp [RoutesBuilder.add_mount_point, setAssoc_of_lookup_none _ _ _ hlook]
        have hfresh : p.1 ∉ rest.map Prod.fst :=
          (List.nodup_cons.mp (by simpa using hnodup)).1
        have htail : ∀ q ∈ rest, q.1 ≠ "/" →
            List.lookup q.1 (b.add_mount_point p.1 p.2.tests_path).mountpoint_routes = none := by
          intro q hq hq2
          rw [hmp]
          refine lookup_concat_none _ _ _ _ (hnone q (List.mem_cons_of_mem _ hq) hq2) ?_
          intro hqp
          exact hfresh (hqp ▸ List.mem_map_of_mem Prod.fst hq)
        rw [ih _ hnodup2 htail, hmp]
        simp [List.filter_cons, hp, List.append_assoc]

/-- C4: get_routes adds exactly two static routes (the fixed
testharness_runner.html page, and a report script named by the
testharnessreport option whose output template argument equals
pause_after_test), then one mount-point route for each test-path entry
whose URL base is not the root, preserving the entry's key as URL
prefix; when the root is absent from test_paths no root mount point
appears in the returned routes, and when it is present only the
synthesized root mount point appears for it. -/
theorem c4_get_routes_layout (tp : TestPaths) (opts : Options) (pat : Bool)
    (name : String) (hnodup : (tp.map Prod.fst).Nodup)
    (hname : getStrOpt opts "testharnessreport" "testharnessreport.js" = Except.ok name) :
    get_routes tp opts pat = Except.ok (
      [Route.static (normpath (pjoin here "testharness_runner.html")) []
          "text/html" "/testharness_runner.html",
       Route.static (normpath (pjoin here name)) [("output", JSON.bool pat)]
          "text/javascript" "/resources/testharnessreport.js"]
      ++ (if (List.lookup "/" tp).isSome then [Route.mount "/" none] else [])
      ++ (tp.filter (fun p => p.1 != "/")).map
          (fun p => Route.mount p.1 (some p.2.tests_path))) := by
  have hnoneInit : ∀ p ∈ tp, p.1 ≠ "/" →
      List.lookup p.1 ([("/", (none : Option String))]) = none := by
    intro p hp hne
    rw [lookup_cons, if_neg hne]
    rfl
  simp only [get_routes, hname, Bind.bind, Except.bind]
  by_cases hroot : (List.lookup "/" tp).isSome
  · simp only [hroot, if_true]
    congr 1
    rw [RoutesBuilder.get_routes, add_mount_points_static,
        add_mount_points_mounts tp _ hnodup hnoneInit]
    simp [RoutesBuilder.init, RoutesBuilder.add_static, List.append_assoc]
  · simp only [hroot, Bool.false_eq_true, if_false]
    have hmp3 : (add_mount_points
        (RoutesBuilder.init.add_static
            (normpath (pjoin here "testharness_runner.html")) [] "text/html"
            "/testharness_runner.html"
          |>.add_static (normpath (pjoin here name))
            [("output", JSON.bool pat)] "text/javascript"
            "/resources/testharnessreport.js") tp).mountpoint_routes
        = ("/", (none : Option String))
          :: (tp.filter (fun p => p.1 != "/")).map (fun p => (p.1, some p.2.tests_path)) := by
      rw [add_mount_points_mounts tp _ hnodup hnoneInit]
      rfl
    simp only [RoutesBuilder.delMount, hmp3, lookup_cons, if_pos rfl,
      Option.isSome_some, if_true, delAssoc]
    congr 1
    rw [RoutesBuilder.get_routes]
    simp only [add_mount_points_static]
    simp [RoutesBuilder.init, RoutesBuilder.add_static, List.append_assoc]

/-- Witness for C4: the spec's two test vectors - with test paths
root plus /sub/ there is exactly one mount point for /sub/ besides the
synthesized root mount; with only /sub/ (no root) the root mount is
absent entirely. -/
theorem c4_get_routes_layout_witness :
    get_routes [("/", ⟨"a"⟩), ("/sub/", ⟨"b"⟩)] [] false = Except.ok
      [Route.static (normpath (pjoin here "testharness_runner.html")) []
          "text/html" "/testharness_runner.html",
       Route.static (normpath (pjoin here "testharnessreport.js")) [("output", JSON.bool false)]
          "text/javascript" "/resources/testharnessreport.js",
       Route.mount "/" none,
       Route.mount "/sub/" (some "b")]
    ∧ get_routes [("/sub/", ⟨"b"⟩)] [] false = Except.ok
      [Route.static (normpath (pjoin here "testharness_runner.html")) []
          "text/html" "/testharness_runner.html",
       Route.static (normpath (pjoin here "testharnessreport.js")) [("output", JSON.bool false)]
          "text/javascript" "/resources/testharnessreport.js",
       Route.mount "/sub/" (some "b")] := by
  constructor
  · have h := c4_get_routes_layout [("/", ⟨"a"⟩), ("/sub/", ⟨"b"⟩)] [] false
      "testharnessreport.js" (by decide) rfl
    simpa using h
  · have h := c4_get_routes_layout [("/sub/", ⟨"b"⟩)] [] false
      "testharnessreport.js" (by decide) rfl
    simpa using h

theorem bind_ok_inv {α β : Type} {x : Except PyError α} {f : α → Except PyError β}
    {b : β} (h : x >>= f = Except.ok b) :
    ∃ a, x = Except.ok a ∧ f a = Except.ok b := by
  cases x with
  | error e => simp [Bind.bind, Except.bind] at h
  | ok a => exact ⟨a, rfl, by simpa [Bind.bind, Except.bind] using h⟩

theorem objGet_objSet_self {j j2 : JSON} {k : String} {v : JSON}
    (h : objSet j k v = Except.ok j2) : objGet j2 k = Except.ok v := by
  cases j <;> simp [objSet] at h
  subst h
  simp [objGet, lookup_setAssoc_self]

theorem objGet_objSet_ne {j j2 : JSON} {k k2 : String} {v : JSON}
    (h : objSet j k2 v = Except.ok j2) (hne : k ≠ k2) :
    objGet j2 k = objGet j k := by
  cases j <;> simp [objSet] at h
  subst h
  simp [objGet, lookup_setAssoc_ne _ k k2 v hne]

/-- The HTTPS port list of a configuration:
`config["ports"]["https"]`. -/
def config_https_ports (c : JSON) : Except PyError JSON := do
  let p ← objGet c "ports"
  objGet p "https"

theorem disable_https_ports_result {c c2 : JSON}
    (h : disable_https_ports c = Except.ok c2) :
    config_https_ports c2 = Except.ok (.arr [.null]) := by
  unfold disable_https_ports at h
  obtain ⟨p, hp, h⟩ := bind_ok_inv h
  obtain ⟨p2, hp2, h⟩ := bind_ok_inv h
  unfold config_https_ports
  rw [objGet_objSet_self h]
  simp [Bind.bind, Except.bind, objGet_objSet_self hp2]

theorem config_https_ports_objSet {c c2 : JSON} {k : String} {v : JSON}
    (h : objSet c k v = Except.ok c2) (hne : k ≠ "ports") :
    config_https_ports c2 = config_https_ports c := by
  unfold config_https_ports
  rw [objGet_objSet_ne h (Ne.symm hne)]

/-- C5: For every input, if the SSL environment reports ssl_enabled
false, then the configuration returned by load_config has its HTTPS
port list equal to exactly the one-element list containing the null
sentinel, regardless of the port lists present in the default or local
JSON files. -/
theorem c5_https_ports_null (fs : FS) (sv : Serve) (tp : TestPaths)
    (opts : Options) (ssl : SslEnv) (c : JSON)
    (hd : ssl.ssl_enabled = false)
    (hok : load_config fs sv tp opts ssl = Except.ok c) :
    config_https_ports c = Except.ok (.arr [.null]) := by
  unfold load_config at hok
  obtain ⟨root, _, hok⟩ := bind_ok_inv hok
  obtain ⟨dtext, _, hok⟩ := bind_ok_inv hok
  obtain ⟨dcfg, _, hok⟩ := bind_ok_inv hok
  obtain ⟨ltext, _, hok⟩ := bind_ok_inv hok
  obtain ⟨data, _, hok⟩ := bind_ok_inv hok
  obtain ⟨lcfg, _, hok⟩ := bind_ok_inv hok
  obtain ⟨lc2, _, hok⟩ := bind_ok_inv hok
  obtain ⟨sslSec, _, hok⟩ := bind_ok_inv hok
  obtain ⟨sslSec2, _, hok⟩ := bind_ok_inv hok
  obtain ⟨lc3, _, hok⟩ := bind_ok_inv hok
  obtain ⟨config, _, hok⟩ := bind_ok_inv hok
  simp only [hd, Bool.false_eq_true, if_false] at hok
  obtain ⟨config2, hcfg2, hok⟩ := bind_ok_inv hok
  obtain ⟨hostJ, _, hok⟩ := bind_ok_inv hok
  obtain ⟨config3, hcfg3, hfin⟩ := bind_ok_inv hok
  have h2 := disable_https_ports_result hcfg2
  have h3 := config_https_ports_objSet hcfg3 (by decide)
  have h4 := config_https_ports_objSet hfin (by decide)
  rw [h4, h3, h2]

/-- A concrete local config file content as parsed JSON, for evaluating
the embedding on closed inputs. -/
def sampleLocalConfig : JSON :=
  .obj [("ssl", .obj []), ("host", .str "h"),
        ("ports", .obj [("https", .arr [.num 443])])]

/-- A concrete filesystem holding a default config file under the test
root and a local config file next to the module. -/
def sampleFS : FS := fun p =>
  if p = "tests/config.default.json" then some [TItem.lit "d"]
  else if p = "wptrunner/config.json" then some [TItem.lit "l"]
  else none

/-- A concrete serve collaborator: the parser recognises the two sample
files, the merge keeps the local config, no subdomains, and a start
that launches nothing. -/
def sampleServe : Serve :=
  { parse := fun t =>
      if t = [TItem.lit "d"] then some (JSON.obj [])
      else if t = [TItem.lit "l"] then some sampleLocalConfig
      else none
    merge_json := fun _ l => l
    get_subdomains := fun _ => []
    start := fun _ _ => (.null, []) }

/-- A concrete SSL environment with SSL disabled. -/
def sslOff : SslEnv := ⟨false, fun _ => (.null, .null)⟩

/-- A concrete test-paths mapping with just the root. -/
def samplePaths : TestPaths := [("/", ⟨"tests"⟩)]

/-- The configuration that `load_config` produces from the sample
fixtures. -/
def sampleMergedConfig : JSON :=
  .obj [("ssl", .obj [("encrypt_after_connect", .bool false)]),
        ("host", .str "h"),
        ("ports", .obj [("https", .arr [.null])]),
        ("external_host", .null),
        ("doc_root", .str "tests"),
        ("key_file", .null),
        ("certificate", .null)]

/-- Witness for C5: on the sample fixtures with SSL disabled,
load_config succeeds and the HTTPS port list of the result is exactly
the one-element null list, although the local file carried port 443. -/
theorem c5_https_ports_null_witness :
    sslOff.ssl_enabled = false
    ∧ load_config sampleFS sampleServe samplePaths [] sslOff
        = Except.ok sampleMergedConfig
    ∧ config_https_ports sampleMergedConfig = Except.ok (.arr [.null]) :=
  ⟨rfl, rfl,
   c5_https_ports_null sampleFS sampleServe samplePaths [] sslOff
     sampleMergedConfig rfl rfl⟩

theorem ncfg_bind {α β : Type} {x : Except PyError α} {f : α → Except PyError β}
    (hx : x ≠ Except.error PyError.configError)
    (hf : ∀ a, f a ≠ Except.error PyError.configError) :
    x >>= f ≠ Except.error PyError.configError := by
  cases x with
  | error e => simpa [Bind.bind, Except.bind] using hx
  | ok a => simpa [Bind.bind, Except.bind] using hf a

theorem serve_path_ncfg (tp : TestPaths) :
    serve_path tp ≠ Except.error PyError.configError := by
  unfold serve_path
  split <;> simp

theorem readFile_ncfg (fs : FS) (p : String) :
    readFile fs p ≠ Except.error PyError.configError := by
  unfold readFile
  split <;> simp

theorem parseJson_ncfg (sv : Serve) (t : Text) :
    parseJson sv t ≠ Except.error PyError.configError := by
  unfold parseJson
  split <;> simp

theorem objGet_ncfg (j : JSON) (k : String) :
    objGet j k ≠ Except.error PyError.configError := by
  unfold objGet
  split
  · split <;> simp
  · simp

theorem objSet_ncfg (j : JSON) (k : String) (v : JSON) :
    objSet j k v ≠ Except.error PyError.configError := by
  unfold objSet
  split <;> simp

theorem interpolate_ncfg (t : Text) (opts : Options) :
    interpolate t opts ≠ Except.error PyError.configError := by
  induction t with
  | nil => simp [interpolate]
  | cons it rest ih =>
      cases it with
      | lit s =>
          simp only [interpolate]
          exact ncfg_bind ih (by intro a; simp)
      | placeholder n =>
          simp only [interpolate]
          cases hl : List.lookup n opts with
          | some v =>
              exact ncfg_bind ih (by intro a; simp)
          | none => simp

theorem disable_https_ports_ncfg (c : JSON) :
    disable_https_ports c ≠ Except.error PyError.configError := by
  unfold disable_https_ports
  refine ncfg_bind (objGet_ncfg c "ports") ?_
  intro p
  refine ncfg_bind (objSet_ncfg p "https" (.arr [.null])) ?_
  intro p2
  exact objSet_ncfg c "ports" p2

theorem load_config_ncfg (fs : FS) (sv : Serve) (tp : TestPaths)
    (opts : Options) (ssl : SslEnv) :
    load_config fs sv tp opts ssl ≠ Except.error PyError.configError := by
  unfold load_config
  refine ncfg_bind (serve_path_ncfg tp) ?_
  intro root
  refine ncfg_bind (readFile_ncfg fs _) ?_
  intro dtext
  refine ncfg_bind (parseJson_ncfg sv _) ?_
  intro dcfg
  refine ncfg_bind (readFile_ncfg fs _) ?_
  intro ltext
  refine ncfg_bind (interpolate_ncfg _ _) ?_
  intro data
  refine ncfg_bind (parseJson_ncfg sv _) ?_
  intro lcfg
  refine ncfg_bind (objSet_ncfg _ _ _) ?_
  intro lc2
  refine ncfg_bind (objGet_ncfg _ _) ?_
  intro sslSec
  refine ncfg_bind (objSet_ncfg _ _ _) ?_
  intro sslSec2
  refine ncfg_bind (objSet_ncfg _ _ _) ?_
  intro lc3
  refine ncfg_bind (objSet_ncfg _ _ _) ?_
  intro config
  by_cases hs : ssl.ssl_enabled = true
  · simp only [hs, if_true]
    refine ncfg_bind (by simp) ?_
    intro config2
    refine ncfg_bind (objGet_ncfg _ _) ?_
    intro hostJ
    refine ncfg_bind (objSet_ncfg _ _ _) ?_
    intro config3
    exact objSet_ncfg _ _ _
  · simp only [hs, if_false]
    refine ncfg_bind (disable_https_ports_ncfg config) ?_
    intro config2
    refine ncfg_bind (objGet_ncfg _ _) ?_
    intro hostJ
    refine ncfg_bind (objSet_ncfg _ _ _) ?_
    intro config3
    exact objSet_ncfg _ _ _

/-- C3 counterexample: with the default config file missing,
load_config raises the builtin IOError, which is not the ConfigError
(TestEnvironmentError) exception class - refuting the claim that such
failures surface as ConfigError. -/
theorem c3_load_config_counterexample :
    load_config (fun _ => none) sampleServe samplePaths [] sslOff
      = Except.error PyError.ioError
    ∧ PyError.ioError ≠ PyError.configError :=
  ⟨rfl, by decide⟩

/-- C3 (amended): load_config fails whenever the default or local JSON
config file is missing or unreadable (builtin IOError), whenever either
file fails to parse (builtin ValueError), and whenever the %(name)s
template interpolation of the local config references an option key
missing from the options mapping (builtin KeyError carrying that key);
it never raises the module's ConfigError (TestEnvironmentError)
exception, which is declared but unused. -/
theorem c3_load_config_builtin_errors :
    (∀ (fs : FS) (sv : Serve) (tp : TestPaths) (opts : Options) (ssl : SslEnv),
      load_config fs sv tp opts ssl ≠ Except.error PyError.configError)
    ∧ (∀ (fs : FS) (sv : Serve) (tp : TestPaths) (opts : Options) (ssl : SslEnv) (root : String),
      serve_path tp = Except.ok root →
      fs (pjoin root "config.default.json") = none →
      load_config fs sv tp opts ssl = Except.error PyError.ioError)
    ∧ (∀ (fs : FS) (sv : Serve) (tp : TestPaths) (opts : Options) (ssl : SslEnv) (root : String)
        (dt : Text),
      serve_path tp = Except.ok root →
      fs (pjoin root "config.default.json") = some dt →
      sv.parse dt = none →
      load_config fs sv tp opts ssl = Except.error PyError.valueError)
    ∧ (∀ (fs : FS) (sv : Serve) (tp : TestPaths) (opts : Options) (ssl : SslEnv) (root : String)
        (dt : Text) (dj : JSON),
      serve_path tp = Except.ok root →
      fs (pjoin root "config.default.json") = some dt →
      sv.parse dt = some dj →
      fs (pjoin here "config.json") = none →
      load_config fs sv tp opts ssl = Except.error PyError.ioError)
    ∧ (∀ (fs : FS) (sv : Serve) (tp : TestPaths) (opts : Options) (ssl : SslEnv) (root : String)
        (dt : Text) (dj : JSON) (lt : Text) (n : String),
      serve_path tp = Except.ok root →
      fs (pjoin root "config.default.json") = some dt →
      sv.parse dt = some dj →
      fs (pjoin here "config.json") = some lt →
      interpolate lt opts = Except.error (PyError.keyError n) →
      load_config fs sv tp opts ssl = Except.error (PyError.keyError n))
    ∧ (∀ (fs : FS) (sv : Serve) (tp : TestPaths) (opts : Options) (ssl : SslEnv) (root : String)
        (dt : Text) (dj : JSON) (lt : Text) (data : Text),
      serve_path tp = Except.ok root →
      fs (pjoin root "config.default.json") = some dt →
      sv.parse dt = some dj →
      fs (pjoin here "config.json") = some lt →
      interpolate lt opts = Except.ok data →
      sv.parse data = none →
      load_config fs sv tp opts ssl = Except.error PyError.valueError) := by
  refine ⟨load_config_ncfg, ?_, ?_, ?_, ?_, ?_⟩
  · intro fs sv tp opts ssl root h1 h2
    simp [load_config, readFile, h1, h2, Bind.bind, Except.bind]
  · intro fs sv tp opts ssl root dt h1 h2 h3
    simp [load_config, readFile, parseJson, h1, h2, h3, Bind.bind, Except.bind]
  · intro fs sv tp opts ssl root dt dj h1 h2 h3 h4
    simp [load_config, readFile, parseJson, h1, h2, h3, h4, Bind.bind, Except.bind]
  · intro fs sv tp opts ssl root dt dj lt n h1 h2 h3 h4 h5
    simp [load_config, readFile, parseJson, h1, h2, h3, h4, h5, Bind.bind, Except.bind]
  · intro fs sv tp opts ssl root dt dj lt data h1 h2 h3 h4 h5 h6
    simp [load_config, readFile, parseJson, h1, h2, h3, h4, h5, h6, Bind.bind, Except.bind]

/-- Witness for C3's amended claim: each failure mode evaluated at a
concrete input - missing default file, unparseable default file,
missing local file, interpolation referencing the undefined option key
`missing`, and unparseable local file. -/
theorem c3_load_config_builtin_errors_witness :
    load_config (fun _ => none) sampleServe samplePaths [] sslOff
      = Except.error PyError.ioError
    ∧ load_config
        (fun p => if p = "tests/config.default.json" then some [TItem.lit "x"] else none)
        { parse := fun _ => none, merge_json := fun _ l => l,
          get_subdomains := fun _ => [], start := fun _ _ => (.null, []) }
        samplePaths [] sslOff = Except.error PyError.valueError
    ∧ load_config
        (fun p => if p = "tests/config.default.json" then some [TItem.lit "d"] else none)
        sampleServe samplePaths [] sslOff = Except.error PyError.ioError
    ∧ load_config
        (fun p => if p = "tests/config.default.json" then some [TItem.lit "d"]
          else if p = "wptrunner/config.json" then some [TItem.placeholder "missing"]
          else none)
        sampleServe samplePaths [] sslOff = Except.error (PyError.keyError "missing")
    ∧ load_config
        (fun p => if p = "tests/config.default.json" then some [TItem.lit "d"]
          else if p = "wptrunner/config.json" then some [TItem.lit "z"] else none)
        sampleServe samplePaths [] sslOff = Except.error PyError.valueError :=
  ⟨c3_load_config_builtin_errors.2.1 _ _ _ _ _ "tests" rfl rfl,
   c3_load_config_builtin_errors.2.2.1 _ _ _ _ _ "tests" [TItem.lit "x"] rfl rfl rfl,
   c3_load_config_builtin_errors.2.2.2.1 _ _ _ _ _ "tests" [TItem.lit "d"]
     (JSON.obj []) rfl rfl rfl rfl,
   c3_load_config_builtin_errors.2.2.2.2.1 _ _ _ _ _ "tests" [TItem.lit "d"]
     (JSON.obj []) [TItem.placeholder "missing"] "missing" rfl rfl rfl rfl rfl,
   c3_load_config_builtin_errors.2.2.2.2.2 _ _ _ _ _ "tests" [TItem.lit "d"]
     (JSON.obj []) [TItem.lit "z"] [TItem.lit "z"] rfl rfl rfl rfl rfl rfl⟩

/-- C6: A successful entry of a LocalEnvironment sets the process
SIGINT disposition to ignored if and only if the supports_debugger
option is truthy and debug_info is present with its interactive flag
true.  Exit, however, never restores the SIGINT handler: every exit
raises TypeError at the argument-less base-exit call before
process_interrupts runs, so no SIG_DFL restoration appears in the exit
trace. -/
theorem c6_sigint_handling :
    (∀ (fs : FS) (sv : Serve) (tp : TestPaths) (opts : Options) (ssl : SslEnv)
       (di : Option DebugInfo) (pat : Bool) (r : JSON × Servers),
      (localServerEnvironment_enter fs sv tp opts ssl di pat).2 = Except.ok r →
      (Effect.sigSet .sigIgn ∈ (localServerEnvironment_enter fs sv tp opts ssl di pat).1
        ↔ truthyOpt opts "supports_debugger" = true ∧ debugInteractive di = true))
    ∧ (∀ servers : Servers,
        (localServerEnvironment_exit servers).2 = some PyError.typeError
        ∧ Effect.sigSet .sigDfl ∉ (localServerEnvironment_exit servers).1) := by
  constructor
  · intro fs sv tp opts ssl di pat r hok
    cases hlc : load_config fs sv tp opts ssl with
    | error e => simp [localServerEnvironment_enter, hlc] at hok
    | ok config =>
        cases hgr : get_routes tp opts pat with
        | error e => simp [localServerEnvironment_enter, hlc, hgr] at hok
        | ok routes =>
            by_cases hc : (truthyOpt opts "supports_debugger" && debugInteractive di) = true
            · have hc2 : truthyOpt opts "supports_debugger" = true
                  ∧ debugInteractive di = true := by
                rw [Bool.and_eq_true] at hc
                exact hc
              simp [localServerEnvironment_enter, hlc, hgr, hc, hc2.1, hc2.2,
                baseEnvironment_enter]
            · have hc2 : ¬(truthyOpt opts "supports_debugger" = true
                  ∧ debugInteractive di = true) := by
                rw [Bool.and_eq_true] at hc
                exact hc
              simp [localServerEnvironment_enter, hlc, hgr, hc, baseEnvironment_enter]
              simpa using hc2
  · intro servers
    constructor <;>
      simp [localServerEnvironment_exit, localExitArgCount, baseExitParamCount]

/-- Witness for C6: at the sample fixtures with supports_debugger set
and interactive debug info, entry succeeds and the SIGINT-ignore effect
is in the trace exactly under the stated condition. -/
theorem c6_sigint_handling_witness :
    (localServerEnvironment_enter sampleFS sampleServe samplePaths
        [("supports_debugger", .bool true)] sslOff (some ⟨true⟩) false).2
      = Except.ok (JSON.null, ([] : Servers))
    ∧ (Effect.sigSet .sigIgn ∈ (localServerEnvironment_enter sampleFS sampleServe samplePaths
        [("supports_debugger", .bool true)] sslOff (some ⟨true⟩) false).1
        ↔ truthyOpt [("supports_debugger", .bool true)] "supports_debugger" = true
          ∧ debugInteractive (some ⟨true⟩) = true) :=
  ⟨rfl,
   c6_sigint_handling.1 sampleFS sampleServe samplePaths
     [("supports_debugger", .bool true)] sslOff (some ⟨true⟩) false
     (JSON.null, []) rfl⟩
